import Mathlib

/-!
Verification of the addressable-LED protocol encoder of `src/main/at_led_cmd.c`
(WS2812 LED strip driver for an AT-command firmware).

Shallow embedding conventions:
* C byte arrays become `Nat → Nat` maps (every stored value is a byte written
  by the code); `uint8_t` values are `Nat`s, with the C conversion to
  `uint8_t` made explicit (`uint8`, reduction mod 256) where a wider value is
  passed to a `uint8_t` parameter.
* The RMT hardware interface is modelled at the boundary the driver uses:
  `rmt_transmit` becomes the construction of a `TransmitRequest` (the byte
  buffer and the byte count handed to the hardware), and the pull-based
  `encoder_callback` is embedded directly as a function from its inputs to
  the symbols it writes, its return value and the `done` flag it leaves.
* The AT dispatcher (out of scope, external) delivers tokenized digit
  parameters; it is modelled as a `List Int` of parsed values, with
  `esp_at_get_para_as_digit index` succeeding exactly for
  `index < params.length`.
-/

set_option maxRecDepth 8000

namespace EspAtLed

/-- `#define RMT_LED_STRIP_RESOLUTION_HZ 10000000` — 10 MHz, 1 tick = 0.1 µs. -/
def RMT_LED_STRIP_RESOLUTION_HZ : Nat := 10000000

/-- `#define MAX_LED_NUMBERS 256`. -/
def MAX_LED_NUMBERS : Nat := 256

/-- `#define DEFAULT_LED_NUMBERS 4`. -/
def DEFAULT_LED_NUMBERS : Nat := 4

/-- Conversion of a wider C integer to a `uint8_t` parameter. -/
def uint8 (n : Nat) : Nat := n % 256

/-- An RMT symbol word: a pulse pair (level, duration in ticks, level,
duration in ticks). -/
structure rmt_symbol_word_t where
  level0 : Nat
  duration0 : Nat
  level1 : Nat
  duration1 : Nat
deriving DecidableEq, Repr

/-- `ws2812_zero`: T0H = 0.3 µs high, T0L = 0.9 µs low.  The C initializer
`0.3 * RMT_LED_STRIP_RESOLUTION_HZ / 1000000` is a double expression that
evaluates exactly to 3.0 and is stored as 3 (and likewise 0.9 µs gives 9);
here the same tick counts are computed in exact rational arithmetic. -/
def ws2812_zero : rmt_symbol_word_t :=
  { level0 := 1
    duration0 := 3 * RMT_LED_STRIP_RESOLUTION_HZ / 10000000
    level1 := 0
    duration1 := 9 * RMT_LED_STRIP_RESOLUTION_HZ / 10000000 }

/-- `ws2812_one`: T1H = 0.9 µs high, T1L = 0.3 µs low. -/
def ws2812_one : rmt_symbol_word_t :=
  { level0 := 1
    duration0 := 9 * RMT_LED_STRIP_RESOLUTION_HZ / 10000000
    level1 := 0
    duration1 := 3 * RMT_LED_STRIP_RESOLUTION_HZ / 10000000 }

/-- `ws2812_reset`: line held low for 50 µs (25 µs + 25 µs), the C
initializer `RMT_LED_STRIP_RESOLUTION_HZ / 1000000 * 50 / 2` verbatim. -/
def ws2812_reset : rmt_symbol_word_t :=
  { level0 := 0
    duration0 := RMT_LED_STRIP_RESOLUTION_HZ / 1000000 * 50 / 2
    level1 := 0
    duration1 := RMT_LED_STRIP_RESOLUTION_HZ / 1000000 * 50 / 2 }

/-- One iteration of the encoder's bit loop: `data_bytes[data_pos] & bitmask`
selects `ws2812_one` or `ws2812_zero`. -/
def bitSymbol (b : Nat) (bitmask : Nat) : rmt_symbol_word_t :=
  if b &&& bitmask ≠ 0 then ws2812_one else ws2812_zero

/-- The unrolled `for (int bitmask = 0x80; bitmask != 0; bitmask >>= 1)`
loop: the 8 symbols written for one byte, MSB first. -/
def encodeByte (b : Nat) : List rmt_symbol_word_t :=
  [bitSymbol b 0x80, bitSymbol b 0x40, bitSymbol b 0x20, bitSymbol b 0x10,
   bitSymbol b 0x08, bitSymbol b 0x04, bitSymbol b 0x02, bitSymbol b 0x01]

/-- Result of one `encoder_callback` invocation: the symbols written to the
output array (in order), the returned count, and the value of the `done`
flag after the call (the callback only ever writes `1` to it). -/
structure EncoderResult where
  symbols : List rmt_symbol_word_t
  ret : Nat
  done : Bool
deriving DecidableEq, Repr

/-- `encoder_callback(data, data_size, symbols_written, symbols_free,
symbols, done, arg)`.  `data` is the byte buffer (`data_size` is its
length), `done` is the flag's value on entry. -/
def encoder_callback (data : List Nat) (symbols_written symbols_free : Nat)
    (done : Bool) : EncoderResult :=
  if symbols_free < 8 then
    { symbols := [], ret := 0, done := done }
  else
    let data_pos := symbols_written / 8
    if data_pos < data.length then
      { symbols := encodeByte (data.getD data_pos 0), ret := 8, done := done }
    else
      { symbols := [ws2812_reset], ret := 1, done := true }

/-- The driver's mutable state: `led_strip_pixels` (a byte array of
`MAX_LED_NUMBERS * 3` cells) and `led_used_no`. -/
structure LedState where
  led_strip_pixels : Nat → Nat
  led_used_no : Nat

/-- The state after C static initialization: both globals zeroed. -/
def initialState : LedState :=
  { led_strip_pixels := fun _ => 0, led_used_no := 0 }

/-- `at_led_set_value(uint8_t led_no, uint8_t red, uint8_t green,
uint8_t blue)`: guard against `led_no >= MAX_LED_NUMBERS` (log + return),
otherwise write green, red, blue at offsets `led_no*3 + 0/1/2` and advance
the high-water mark. -/
def at_led_set_value (s : LedState) (led_no red green blue : Nat) : LedState :=
  if MAX_LED_NUMBERS ≤ led_no then s
  else
    { led_strip_pixels := fun i =>
        if i = led_no * 3 + 0 then green
        else if i = led_no * 3 + 1 then red
        else if i = led_no * 3 + 2 then blue
        else s.led_strip_pixels i
      led_used_no :=
        if s.led_used_no ≤ led_no then led_no + 1 else s.led_used_no }

/-- The transmit request issued by `rmt_transmit(led_chan, simple_encoder,
led_strip_pixels, count * 3, &tx_config)`: the byte buffer handed to the
hardware and the number of bytes to encode. -/
structure TransmitRequest where
  data : Nat → Nat
  length : Nat

/-- `at_led_flush_no(uint8_t count)`: clamp `count` to `led_used_no`, wait
for the previous transmission, then transmit `count * 3` bytes of
`led_strip_pixels`.  `count` here is the value of the `uint8_t` parameter
(callers passing a wider value go through `uint8`).  The state itself is
not modified. -/
def at_led_flush_no (s : LedState) (count : Nat) : TransmitRequest :=
  let count := if s.led_used_no < count then s.led_used_no else count
  { data := s.led_strip_pixels, length := count * 3 }

/-- `at_led_clear_all()`: zero the pixel array, reset `led_used_no`, set the
first `DEFAULT_LED_NUMBERS` LEDs to black, flush.  Returns the new state
and the request issued by the final `at_led_flush_no(DEFAULT_LED_NUMBERS*3)`
(the argument 12 fits in `uint8_t`). -/
def at_led_clear_all (_s : LedState) : LedState × TransmitRequest :=
  let s0 : LedState := { led_strip_pixels := fun _ => 0, led_used_no := 0 }
  let s1 := (List.range DEFAULT_LED_NUMBERS).foldl
    (fun t led => at_led_set_value t led 0 0 0) s0
  (s1, at_led_flush_no s1 (uint8 (DEFAULT_LED_NUMBERS * 3)))

/-- `static const uint8_t LUT3[8]` — gamma LUT for the 3-bit channels. -/
def LUT3 : List Nat := [0, 2, 7, 25, 57, 106, 171, 255]

/-- `static const uint8_t LUT2[4]` — gamma LUT for the 2-bit channel. -/
def LUT2 : List Nat := [0, 2, 57, 255]

/-- The RGB332 expansion inside `at_setup_cmd_led` (lines 180-182):
`r8 = LUT3[(digit >> 5) & 0x7]; g8 = LUT3[(digit >> 2) & 0x7];
b8 = LUT2[digit & 0x3]` for a `digit` already checked to be in 0..255. -/
def quantize (code : Nat) : Nat × Nat × Nat :=
  (LUT3.getD ((code >>> 5) &&& 0x7) 0,
   LUT3.getD ((code >>> 2) &&& 0x7) 0,
   LUT2.getD (code &&& 0x3) 0)

/-- AT command result codes returned by the handler. -/
inductive AtResult where
  | ok
  | error
deriving DecidableEq, Repr

/-- Outcome of one `at_setup_cmd_led` run: the state left behind, the
transmit request issued by `at_led_flush_no` (if the flush was reached),
and the result code. -/
structure CmdOutcome where
  state : LedState
  request : Option TransmitRequest
  result : AtResult

/-- The loop body's `r8 = LUT3[(digit >> 5) & 0x7]; g8 = ...; b8 = ...;
at_led_set_value(index, r8, g8, b8)` for one in-range `digit`. -/
def applyParam (s : LedState) (index : Nat) (digit : Int) : LedState :=
  at_led_set_value s index (quantize digit.toNat).1 (quantize digit.toNat).2.1
    (quantize digit.toNat).2.2

/-- The code after the parse loop of `at_setup_cmd_led`, reached with the
final value of `index`: `ESP_AT_RESULT_CODE_ERROR` if `index == 0`,
otherwise `at_led_flush_no(index)` (a `uint8_t` parameter, hence
`uint8 index`) and `ESP_AT_RESULT_CODE_OK`. -/
def ledCmdExit (s : LedState) (index : Nat) : CmdOutcome :=
  if index = 0 then
    { state := s, request := none, result := .error }
  else
    { state := s, request := some (at_led_flush_no s (uint8 index)),
      result := .ok }

/-- The `while (index < MAX_LED_NUMBERS && esp_at_get_para_as_digit(index,
&digit) == ESP_AT_PARA_PARSE_RESULT_OK)` loop of `at_setup_cmd_led`.
`params` is the dispatcher's tokenized digit list: parsing parameter
`index` succeeds exactly when `index < params.length`.  On an out-of-range
digit the handler returns `ESP_AT_RESULT_CODE_ERROR` at once.  The `fuel`
argument makes the recursion structural: every call keeps
`params.length < fuel + index`, so the `fuel = 0` base (which repeats the
loop-exit code) is never reached and the loop runs exactly as in C. -/
def ledCmdLoop (fuel : Nat) (s : LedState) (params : List Int)
    (index : Nat) : CmdOutcome :=
  match fuel with
  | 0 => ledCmdExit s index
  | fuel + 1 =>
    if index < MAX_LED_NUMBERS ∧ index < params.length then
      if params.getD index 0 < 0 ∨ 255 < params.getD index 0 then
        { state := s, request := none, result := .error }
      else
        ledCmdLoop fuel (applyParam s index (params.getD index 0)) params
          (index + 1)
    else
      ledCmdExit s index

/-- `at_setup_cmd_led`: the loop started at `index = 0`, with enough fuel
for all `params.length` iterations plus the exit. -/
def at_setup_cmd_led (s : LedState) (params : List Int) : CmdOutcome :=
  ledCmdLoop (params.length + 1) s params 0

/-- A parameter value accepted by the handler's range check
(`digit < 0 || digit > 255` fails). -/
def InRange (d : Int) : Prop := 0 ≤ d ∧ d ≤ 255

instance (d : Int) : Decidable (InRange d) := by
  unfold InRange; infer_instance

/-- The cumulative effect on the state of the loop's
`at_led_set_value(index, r8, g8, b8)` calls while it walks a list of
in-range parameters starting at LED `index`: used to state which writes
have been applied when the handler aborts. -/
def storeParams (s : LedState) (index : Nat) : List Int → LedState
  | [] => s
  | d :: rest => storeParams (applyParam s index d) (index + 1) rest

/-! ## Supporting lemmas -/

lemma and_two_pow_ne_zero (b i : Nat) : b &&& 2 ^ i ≠ 0 ↔ b.testBit i := by
  rw [Nat.and_two_pow]
  cases h : b.testBit i <;> simp [h]

lemma bitSymbol_two_pow (b i : Nat) :
    bitSymbol b (2 ^ i) = if b.testBit i then ws2812_one else ws2812_zero := by
  unfold bitSymbol
  by_cases h : b.testBit i
  · rw [if_pos ((and_two_pow_ne_zero b i).mpr h), if_pos h]
  · rw [if_neg fun hc => h ((and_two_pow_ne_zero b i).mp hc), if_neg h]

lemma encodeByte_eq_testBits (b : Nat) :
    encodeByte b = (List.range 8).map
      (fun k => if b.testBit (7 - k) then ws2812_one else ws2812_zero) := by
  have e : ∀ i : Nat, bitSymbol b (2 ^ i) =
      if b.testBit i then ws2812_one else ws2812_zero := bitSymbol_two_pow b
  have h7 := e 7; have h6 := e 6; have h5 := e 5; have h4 := e 4
  have h3 := e 3; have h2 := e 2; have h1 := e 1; have h0 := e 0
  norm_num at h7 h6 h5 h4 h3 h2 h1 h0
  simp [encodeByte, List.range_succ, h7, h6, h5, h4, h3, h2, h1, h0]

/-! ## Claims about the bit-to-symbol encoder -/

/-- C2: with at least 8 free slots and the byte position
`symbols_written / 8` still inside the buffer, one `encoder_callback`
invocation writes exactly 8 symbols — one per bit of that byte, MSB first,
`ws2812_one` for a 1 bit and `ws2812_zero` for a 0 bit — returns 8, and
leaves the `done` flag as it was. -/
theorem C2_encoder_emits_byte (data : List Nat)
    (symbols_written symbols_free : Nat) (done : Bool)
    (hpos : symbols_written / 8 < data.length) (hfree : 8 ≤ symbols_free) :
    encoder_callback data symbols_written symbols_free done =
      { symbols := (List.range 8).map (fun k =>
          if (data.getD (symbols_written / 8) 0).testBit (7 - k) then
            ws2812_one else ws2812_zero),
        ret := 8, done := done } := by
  have h8 : ¬ symbols_free < 8 := by omega
  simp [encoder_callback, h8, hpos, encodeByte_eq_testBits]

/-- C2 witness: on the 1-byte buffer `[0b10110000]` with 0 symbols written
and 8 free slots, the callback yields `[ONE, ZERO, ONE, ONE, ZERO, ZERO,
ZERO, ZERO]`, returns 8, `done` stays false. -/
theorem C2_encoder_emits_byte_witness :
    encoder_callback [0b10110000] 0 8 false =
      { symbols := [ws2812_one, ws2812_zero, ws2812_one, ws2812_one,
                    ws2812_zero, ws2812_zero, ws2812_zero, ws2812_zero],
        ret := 8, done := false } := by
  rw [C2_encoder_emits_byte [0b10110000] 0 8 false (by decide) (by decide)]
  decide

/-- C3: once the byte position `symbols_written / 8` has moved past the
buffer, an invocation with at least 8 free slots writes exactly one
`ws2812_reset` symbol, sets the `done` flag, and returns 1. -/
theorem C3_encoder_emits_reset (data : List Nat)
    (symbols_written symbols_free : Nat) (done : Bool)
    (hpos : data.length ≤ symbols_written / 8) (hfree : 8 ≤ symbols_free) :
    encoder_callback data symbols_written symbols_free done =
      { symbols := [ws2812_reset], ret := 1, done := true } := by
  have h8 : ¬ symbols_free < 8 := by omega
  have hp : ¬ symbols_written / 8 < data.length := by omega
  simp [encoder_callback, h8, hp]

/-- C3 witness: the 1-byte buffer again, now with `symbols_written = 8`. -/
theorem C3_encoder_emits_reset_witness :
    encoder_callback [0b10110000] 8 8 false =
      { symbols := [ws2812_reset], ret := 1, done := true } :=
  C3_encoder_emits_reset [0b10110000] 8 8 false (by decide) (by decide)

/-- C4: with fewer than 8 free slots the callback writes no symbols,
returns 0, and leaves the `done` flag untouched — so a byte's 8
bit-symbols are never split across invocations. -/
theorem C4_encoder_needs_eight_free (data : List Nat)
    (symbols_written symbols_free : Nat) (done : Bool)
    (hfree : symbols_free < 8) :
    encoder_callback data symbols_written symbols_free done =
      { symbols := [], ret := 0, done := done } := by
  simp [encoder_callback, hfree]

/-- C4 witness: 7 free slots, mid-buffer position, `done` entering true
and entering false both come back unchanged. -/
theorem C4_encoder_needs_eight_free_witness :
    encoder_callback [0b10110000] 3 7 false =
      { symbols := [], ret := 0, done := false } ∧
    encoder_callback [0b10110000] 3 7 true =
      { symbols := [], ret := 0, done := true } :=
  ⟨C4_encoder_needs_eight_free [0b10110000] 3 7 false (by decide),
   C4_encoder_needs_eight_free [0b10110000] 3 7 true (by decide)⟩

/-! ## Claims about the color quantizer and the timing constants -/

/-- C5: the quantizer maps a packed byte to
`(LUT3[(code >> 5) & 7], LUT3[(code >> 2) & 7], LUT2[code & 3])` with
`LUT3 = {0, 2, 7, 25, 57, 106, 171, 255}` and `LUT2 = {0, 2, 57, 255}`;
in particular `quantize 0x00 = (0,0,0)`, `quantize 0xFF = (255,255,255)`,
`quantize 0x24 = (2,2,0)`. -/
theorem C5_quantizer_tables :
    (∀ code : Nat, quantize code =
      (([0, 2, 7, 25, 57, 106, 171, 255] : List Nat).getD
         ((code >>> 5) &&& 0x7) 0,
       ([0, 2, 7, 25, 57, 106, 171, 255] : List Nat).getD
         ((code >>> 2) &&& 0x7) 0,
       ([0, 2, 57, 255] : List Nat).getD (code &&& 0x3) 0)) ∧
    quantize 0x00 = (0, 0, 0) ∧
    quantize 0xFF = (255, 255, 255) ∧
    quantize 0x24 = (2, 2, 0) :=
  ⟨fun _ => rfl, by decide, by decide, by decide⟩

/-- C6: at the 10 MHz tick resolution, `ws2812_zero` is high 3 ticks
(0.3 µs) then low 9 ticks (0.9 µs), `ws2812_one` is high 9 ticks then low
3 ticks, and `ws2812_reset` holds the line low on both halves for a total
of at least 500 ticks (≥ 50 µs). -/
theorem C6_ws2812_timing :
    RMT_LED_STRIP_RESOLUTION_HZ = 10000000 ∧
    ws2812_zero = { level0 := 1, duration0 := 3, level1 := 0,
                    duration1 := 9 } ∧
    ws2812_one = { level0 := 1, duration0 := 9, level1 := 0,
                   duration1 := 3 } ∧
    ws2812_reset.level0 = 0 ∧ ws2812_reset.level1 = 0 ∧
    500 ≤ ws2812_reset.duration0 + ws2812_reset.duration1 := by
  decide

/-! ## Claims about the pixel buffer -/

lemma set_value_pixels (s : LedState) (i r g b : Nat)
    (hi : i < MAX_LED_NUMBERS) (j : Nat) :
    (at_led_set_value s i r g b).led_strip_pixels j =
      if j = i * 3 then g
      else if j = i * 3 + 1 then r
      else if j = i * 3 + 2 then b
      else s.led_strip_pixels j := by
  unfold at_led_set_value
  rw [if_neg (by omega)]
  show (if j = i * 3 + 0 then g
    else if j = i * 3 + 1 then r
    else if j = i * 3 + 2 then b
    else s.led_strip_pixels j) = _
  rw [show i * 3 + 0 = i * 3 from rfl]

lemma set_value_used (s : LedState) (i r g b : Nat)
    (hi : i < MAX_LED_NUMBERS) :
    (at_led_set_value s i r g b).led_used_no = max s.led_used_no (i + 1) := by
  unfold at_led_set_value
  rw [if_neg (by omega)]
  show (if s.led_used_no <= i then i + 1 else s.led_used_no) = _
  by_cases h : s.led_used_no <= i
  . rw [if_pos h]; omega
  . rw [if_neg h]; omega

/-- C7: an in-range `at_led_set_value(i, r, g, b)` stores the triple in
wire channel order — green at byte `i*3`, red at `i*3 + 1`, blue at
`i*3 + 2` — and leaves every byte outside `[i*3, i*3 + 3)` (in particular
every other LED's triple) unchanged. -/
theorem C7_set_value_wire_order (s : LedState) (i r g b j : Nat)
    (hi : i < MAX_LED_NUMBERS) :
    (at_led_set_value s i r g b).led_strip_pixels (i * 3) = g ∧
    (at_led_set_value s i r g b).led_strip_pixels (i * 3 + 1) = r ∧
    (at_led_set_value s i r g b).led_strip_pixels (i * 3 + 2) = b ∧
    (j < i * 3 ∨ i * 3 + 3 <= j →
      (at_led_set_value s i r g b).led_strip_pixels j =
        s.led_strip_pixels j) := by
  refine ⟨?_, ?_, ?_, fun hj => ?_⟩
  . rw [set_value_pixels s i r g b hi, if_pos rfl]
  . rw [set_value_pixels s i r g b hi, if_neg (by omega), if_pos rfl]
  . rw [set_value_pixels s i r g b hi, if_neg (by omega), if_neg (by omega),
      if_pos rfl]
  . rw [set_value_pixels s i r g b hi, if_neg (by omega), if_neg (by omega),
      if_neg (by omega)]

/-- C7 witness: setting LED 5 of the startup state to (r,g,b) = (1,2,3)
stores 2, 1, 3 at bytes 15, 16, 17 and leaves byte 12 (LED 4) at 0. -/
theorem C7_set_value_wire_order_witness :
    (at_led_set_value initialState 5 1 2 3).led_strip_pixels 15 = 2 ∧
    (at_led_set_value initialState 5 1 2 3).led_strip_pixels 16 = 1 ∧
    (at_led_set_value initialState 5 1 2 3).led_strip_pixels 17 = 3 ∧
    (at_led_set_value initialState 5 1 2 3).led_strip_pixels 12 =
      initialState.led_strip_pixels 12 := by
  have h := C7_set_value_wire_order initialState 5 1 2 3 12 (by decide)
  exact ⟨h.1, h.2.1, h.2.2.1, h.2.2.2 (by omega)⟩

/-- C8: an in-range `at_led_set_value` leaves
`led_used_no = max (previous value) (i + 1)`; the invariant
`led_used_no <= MAX_LED_NUMBERS` is preserved by `at_led_set_value` and
(re)established by `at_led_clear_all` (`at_led_flush_no` never writes the
state); and a flush's transmit request covers
`min count led_used_no * 3 <= led_used_no * 3` bytes, so bytes of LEDs at
indices `>= led_used_no` are never transmitted. -/
theorem C8_used_count_invariant (s : LedState) (i r g b count : Nat)
    (hi : i < MAX_LED_NUMBERS) (hinv : s.led_used_no <= MAX_LED_NUMBERS) :
    (at_led_set_value s i r g b).led_used_no = max s.led_used_no (i + 1) ∧
    (at_led_set_value s i r g b).led_used_no <= MAX_LED_NUMBERS ∧
    (at_led_clear_all s).1.led_used_no <= MAX_LED_NUMBERS ∧
    (at_led_flush_no s count).length = min count s.led_used_no * 3 ∧
    (at_led_flush_no s count).length <= s.led_used_no * 3 := by
  have hused := set_value_used s i r g b hi
  have hflush : (at_led_flush_no s count).length =
      min count s.led_used_no * 3 := by
    show (if s.led_used_no < count then s.led_used_no else count) * 3 =
      min count s.led_used_no * 3
    by_cases h : s.led_used_no < count
    . rw [if_pos h]; omega
    . rw [if_neg h]; omega
  refine ⟨hused, ?_, ?_, hflush, ?_⟩
  . rw [hused]; unfold MAX_LED_NUMBERS at hi hinv ⊢; omega
  . show (4 : Nat) <= MAX_LED_NUMBERS
    decide
  . rw [hflush]; omega

/-- C8 witness: instantiated on the startup state with `i = 10`,
`count = 300`. -/
theorem C8_used_count_invariant_witness :
    (at_led_set_value initialState 10 9 9 9).led_used_no =
      max initialState.led_used_no 11 ∧
    (at_led_set_value initialState 10 9 9 9).led_used_no <=
      MAX_LED_NUMBERS ∧
    (at_led_clear_all initialState).1.led_used_no <= MAX_LED_NUMBERS ∧
    (at_led_flush_no initialState 300).length =
      min 300 initialState.led_used_no * 3 ∧
    (at_led_flush_no initialState 300).length <=
      initialState.led_used_no * 3 :=
  C8_used_count_invariant initialState 10 9 9 9 300 (by decide) (by decide)

/-- C10: `at_led_set_value`'s LED index parameter is a `uint8_t`, so every
actual call passes a value below `MAX_LED_NUMBERS = 256`; for all such
values the out-of-range guard is false and the call reaches the pixel
writes — the guard branch is unreachable from the public interface. -/
theorem C10_guard_unreachable (s : LedState) (led_no r g b : Nat)
    (h : led_no < 256) :
    ¬ MAX_LED_NUMBERS <= led_no ∧
    (at_led_set_value s led_no r g b).led_strip_pixels (led_no * 3) = g ∧
    (at_led_set_value s led_no r g b).led_strip_pixels (led_no * 3 + 1) = r ∧
    (at_led_set_value s led_no r g b).led_strip_pixels (led_no * 3 + 2) =
      b := by
  have hg : led_no < MAX_LED_NUMBERS := h
  refine ⟨by omega, ?_, ?_, ?_⟩
  . rw [set_value_pixels s led_no r g b hg, if_pos rfl]
  . rw [set_value_pixels s led_no r g b hg, if_neg (by omega), if_pos rfl]
  . rw [set_value_pixels s led_no r g b hg, if_neg (by omega),
      if_neg (by omega), if_pos rfl]

/-- C10 witness: the largest `uint8_t` value, 255. -/
theorem C10_guard_unreachable_witness :
    ¬ MAX_LED_NUMBERS <= 255 ∧
    (at_led_set_value initialState 255 7 8 9).led_strip_pixels 765 = 8 ∧
    (at_led_set_value initialState 255 7 8 9).led_strip_pixels 766 = 7 ∧
    (at_led_set_value initialState 255 7 8 9).led_strip_pixels 767 = 9 :=
  C10_guard_unreachable initialState 255 7 8 9 (by decide)

/-! ## Claims about the command handler -/

lemma ledCmdLoop_succ (fuel : Nat) (s : LedState) (params : List Int)
    (index : Nat) :
    ledCmdLoop (fuel + 1) s params index =
      if index < MAX_LED_NUMBERS ∧ index < params.length then
        if params.getD index 0 < 0 ∨ 255 < params.getD index 0 then
          { state := s, request := none, result := .error }
        else
          ledCmdLoop fuel (applyParam s index (params.getD index 0)) params
            (index + 1)
      else ledCmdExit s index := rfl

/-- If every parameter from `index` on is in range, the loop stores them
all and falls through to the exit code at `index = params.length`. -/
lemma ledCmdLoop_run_ok (fuel : Nat) :
    ∀ (params : List Int) (index : Nat) (s : LedState),
    params.length <= MAX_LED_NUMBERS →
    index <= params.length →
    params.length < fuel + index →
    (∀ k, index <= k → k < params.length → InRange (params.getD k 0)) →
    ledCmdLoop fuel s params index =
      ledCmdExit (storeParams s index (params.drop index))
        params.length := by
  induction fuel with
  | zero =>
    intro params index s _ hidx hfuel _
    omega
  | succ f ih =>
    intro params index s hlen hidx hfuel hall
    rw [ledCmdLoop_succ]
    by_cases hc : index < params.length
    . rw [if_pos ⟨by omega, hc⟩]
      have hin := hall index le_rfl hc
      rw [if_neg (by rcases hin with ⟨h1, h2⟩; omega)]
      rw [ih params (index + 1) (applyParam s index (params.getD index 0))
        hlen (by omega) (by omega) (fun k hk1 hk2 => hall k (by omega) hk2)]
      have hgd : params.getD index 0 = params[index] :=
        List.getD_eq_getElem params 0 hc
      conv_rhs => rw [List.drop_eq_getElem_cons hc, ← hgd]
      rfl
    . have hie : index = params.length := by omega
      rw [if_neg (fun hand => hc hand.2), hie, List.drop_length]
      rfl

/-- If the parameters at `index, ..., k - 1` are in range and the one at
`k` is not, the loop applies exactly the in-range prefix and returns the
error outcome. -/
lemma ledCmdLoop_run_err (fuel : Nat) :
    ∀ (params : List Int) (index k : Nat) (s : LedState),
    params.length <= MAX_LED_NUMBERS →
    index <= k → k < params.length → k < fuel + index →
    (∀ j, index <= j → j < k → InRange (params.getD j 0)) →
    ¬ InRange (params.getD k 0) →
    ledCmdLoop fuel s params index =
      { state := storeParams s index ((params.drop index).take (k - index)),
        request := none, result := .error } := by
  induction fuel with
  | zero =>
    intro params index k s _ hik _ hfuel _ _
    omega
  | succ f ih =>
    intro params index k s hlen hik hk hfuel hpre hbad
    rw [ledCmdLoop_succ, if_pos ⟨by omega, by omega⟩]
    by_cases hek : index = k
    . subst hek
      rw [if_pos (by unfold InRange at hbad; omega)]
      rw [Nat.sub_self, List.take_zero]
      rfl
    . have hin := hpre index le_rfl (by omega)
      rw [if_neg (by rcases hin with ⟨h1, h2⟩; omega)]
      rw [ih params (index + 1) k (applyParam s index (params.getD index 0))
        hlen (by omega) hk (by omega)
        (fun j hj1 hj2 => hpre j (by omega) hj2) hbad]
      have hidx : index < params.length := by omega
      have hgd : params.getD index 0 = params[index] :=
        List.getD_eq_getElem params 0 hidx
      conv_rhs => rw [List.drop_eq_getElem_cons hidx, ← hgd,
        show k - index = (k - (index + 1)) + 1 from by omega,
        List.take_succ_cons]
      rfl

/-- C9: for a parameter list of at most `MAX_LED_NUMBERS` entries, the
handler errors exactly when some parameter is out of 0..255 or the list
is empty; with no parameters it neither writes the buffer nor flushes;
and on the first out-of-range parameter (position `k`) it stops, leaving
exactly the `k` preceding valid parameters applied (no rollback) and no
flush issued. -/
theorem C9_error_conditions (s : LedState) (params : List Int) (k : Nat)
    (hlen : params.length <= MAX_LED_NUMBERS) :
    ((at_setup_cmd_led s params).result = .error ↔
      params.length = 0 ∨ ∃ d ∈ params, ¬ InRange d) ∧
    (params.length = 0 →
      (at_setup_cmd_led s params).state = s ∧
      (at_setup_cmd_led s params).request = none) ∧
    (k < params.length →
      (∀ j, j < k → InRange (params.getD j 0)) →
      ¬ InRange (params.getD k 0) →
      (at_setup_cmd_led s params).state = storeParams s 0 (params.take k) ∧
      (at_setup_cmd_led s params).request = none) := by
  refine ⟨⟨?_, ?_⟩, ?_, ?_⟩
  . intro herr
    by_contra hno
    push_neg at hno
    obtain ⟨hne, hall⟩ := hno
    have hrun := ledCmdLoop_run_ok (params.length + 1) params 0 s hlen
      (Nat.zero_le _) (by omega)
      (fun n _ hn => by
        rw [List.getD_eq_getElem params 0 hn]
        exact hall params[n] (List.getElem_mem hn))
    unfold at_setup_cmd_led at herr
    rw [hrun] at herr
    unfold ledCmdExit at herr
    rw [if_neg hne] at herr
    simp at herr
  . intro hcase
    rcases hcase with h0 | ⟨d, hd, hbad⟩
    . have hnil : params = [] := List.length_eq_zero.mp h0
      subst hnil
      rfl
    . obtain ⟨n, hn, hnd⟩ := List.mem_iff_getElem.mp hd
      have exS : ∃ m, m < params.length ∧ ¬ InRange (params.getD m 0) :=
        ⟨n, hn, by rw [List.getD_eq_getElem params 0 hn, hnd]; exact hbad⟩
      have hk0 := Nat.find_spec exS
      have hpre : ∀ j, 0 <= j → j < Nat.find exS →
          InRange (params.getD j 0) := by
        intro j _ hj
        by_contra hc
        exact Nat.find_min exS hj ⟨by omega, hc⟩
      have hrun := ledCmdLoop_run_err (params.length + 1) params 0
        (Nat.find exS) s hlen (Nat.zero_le _) hk0.1 (by omega) hpre hk0.2
      unfold at_setup_cmd_led
      rw [hrun]
  . intro h0
    have hnil : params = [] := List.length_eq_zero.mp h0
    subst hnil
    exact ⟨rfl, rfl⟩
  . intro hk hpre hbad
    have hrun := ledCmdLoop_run_err (params.length + 1) params 0 k s hlen
      (Nat.zero_le _) hk (by omega) (fun j _ hj => hpre j hj) hbad
    unfold at_setup_cmd_led
    rw [hrun]
    rw [List.drop_zero, Nat.sub_zero]
    exact ⟨rfl, rfl⟩

/-- C9 witness: `+LED=10,999` errors with the first parameter already
applied and no flush; 999 is the out-of-range culprit. -/
theorem C9_error_conditions_witness :
    (at_setup_cmd_led initialState [10, 999]).result = .error ∧
    (at_setup_cmd_led initialState [10, 999]).request = none ∧
    (at_setup_cmd_led initialState [10, 999]).state =
      storeParams initialState 0 [10] := by
  have h := C9_error_conditions initialState [10, 999] 1 (by decide)
  have h3 := h.2.2 (by decide)
    (fun j hj => by
      have hj0 : j = 0 := by omega
      subst hj0
      decide)
    (by decide)
  exact ⟨(h.1).mpr (Or.inr ⟨999, by decide, by decide⟩), h3.2, h3.1⟩

/-- C1 (failing input for the flush count): a `+LED` command with 256
valid parameters — the maximum the spec allows — parses and stores all
256 quantized colors (here parameter value 255, quantized to
(255,255,255)) and reports success, but the transmit request covers 0
bytes instead of the required 256 * 3 = 768: `at_led_flush_no`'s
`uint8_t count` parameter receives `index = 256`, which truncates to 0.
For 1 to 255 parameters the handler behaves as the claim states; at 256
the flush is lost. -/
theorem C1_flush_count_truncated_at_256 :
    (at_setup_cmd_led initialState (List.replicate 256 255)).result =
      .ok ∧
    (at_setup_cmd_led initialState
      (List.replicate 256 255)).state.led_used_no = 256 ∧
    (at_setup_cmd_led initialState
      (List.replicate 256 255)).state.led_strip_pixels 0 = 255 ∧
    (at_setup_cmd_led initialState
      (List.replicate 256 255)).state.led_strip_pixels 765 = 255 ∧
    Option.map TransmitRequest.length
      (at_setup_cmd_led initialState (List.replicate 256 255)).request =
      some 0 := by
  decide

end EspAtLed
